import Mathlib

/-!
Shallow embedding of `Thorlabs_BPC303/bpc303.py` (class `BPC303`), a thin
control layer over the Thorlabs Kinesis .NET driver for a 3-channel benchtop
piezo controller.

Modelling choices:
* The opaque .NET driver is modelled by the observable footprint of the calls
  the Python class makes into it: each method returns, besides its result, a
  trace of driver `Effect`s in the order the Python code issues them.
* Driver-side channel state (settings initialized, polling, enabled, last
  commanded position, zeroed) is kept in a finite association list keyed by
  channel number, so states have decidable equality.
* Python exceptions escaping a method are modelled with `Except`: the
  `DeviceNotReadyException` raised in `__init__`, and the `AttributeError`
  that a call on a `None` channel attribute raises.
* Positions are modelled as exact rationals; console prints are dropped.
* External driver calls that can only fail in the hardware (controller
  connect, wait-for-settings with its 5000 ms bound) are modelled as
  succeeding; their invocation and arguments are recorded in the trace.
-/

/-- The `axis_chan_mapping` dict: channel number addressed by each axis. -/
structure AxisChanMapping where
  x : Nat
  y : Nat
  z : Nat
  deriving Repr, DecidableEq

/-- Dict lookup `self.axis_chan_mapping[axis]`; only reached with a valid
axis token in the Python code, so the junk value on other tokens is inert. -/
def AxisChanMapping.lookup (m : AxisChanMapping) (axis : String) : Nat :=
  if axis = "x" then m.x
  else if axis = "y" then m.y
  else if axis = "z" then m.z
  else 0

/-- The default mapping `{'x': 1, 'y': 2, 'z': 3}`. -/
def defaultMapping : AxisChanMapping := ⟨1, 2, 3⟩

/-- Observable state of one driver channel object. -/
structure ChannelState where
  settingsInit : Bool
  pollingInterval : Option Nat
  enabled : Bool
  position : Option Rat
  zeroed : Bool
  deriving Repr, DecidableEq

/-- A channel as the driver presents it before anything was done to it. -/
def freshChannel : ChannelState :=
  { settingsInit := false, pollingInterval := none, enabled := false,
    position := none, zeroed := false }

/-- Driver-boundary calls the Python code makes, in source order. -/
inductive Effect where
  | buildDeviceList
  | createBenchtopPiezo (deviceID : String)
  | controllerConnect (deviceID : String)
  | getChannel (chan : Nat)
  | waitForSettingsInit (chan timeout : Nat)
  | startPolling (chan interval : Nat)
  | enableDevice (chan : Nat)
  | identifyDevice (chan : Nat)
  | sleepSeconds (secs : Nat)
  | setPositionControlMode (chan : Nat) (closeLoop : Bool)
  | setZero (chan : Nat)
  | setPositionCmd (chan : Nat) (pos : Rat)
  | stopPolling (chan : Nat)
  | disableDevice (chan : Nat)
  | controllerDisconnect
  deriving Repr, DecidableEq

/-- Python exceptions that escape a `BPC303` method in the modelled paths. -/
inductive PyError where
  | deviceNotReadyException
  | attributeError
  deriving Repr, DecidableEq

/-- Look a channel up by number in the driver state. -/
def lookupChan : List (Nat × ChannelState) → Nat → Option ChannelState
  | [], _ => none
  | (m, c) :: t, n => if m = n then some c else lookupChan t n

/-- Apply `f` to the channel with number `n` in the driver state. -/
def updateChan (f : ChannelState → ChannelState) :
    List (Nat × ChannelState) → Nat → List (Nat × ChannelState)
  | [], _ => []
  | (m, c) :: t, n =>
    if m = n then (m, f c) :: updateChan f t n else (m, c) :: updateChan f t n

/-- State of a constructed `BPC303` object together with the observable
state of the driver objects it holds. -/
structure PyState where
  deviceID : String
  isconnected : Bool
  axis_chan_mapping : AxisChanMapping
  controllerConnected : Bool
  xchannel : Option Nat
  ychannel : Option Nat
  zchannel : Option Nat
  channels : List (Nat × ChannelState)
  deriving Repr, DecidableEq

/-- `BPC303.__init__(deviceID, axis_chan_mapping)`: builds the device list,
checks membership of `deviceID`, creates the controller object or raises
`DeviceNotReadyException`, and sets the three channel attributes to `None`.
`deviceList` is what `DeviceManagerCLI.GetDeviceList()` returns; `chans` is
the driver-side state of the physical channels. -/
def BPC303.init (deviceList : List String) (deviceID : String)
    (axis_chan_mapping : AxisChanMapping) (chans : List (Nat × ChannelState)) :
    Except PyError PyState × List Effect :=
  if deviceID ∈ deviceList then
    (Except.ok
      { deviceID := deviceID, isconnected := false,
        axis_chan_mapping := axis_chan_mapping,
        controllerConnected := false,
        xchannel := none, ychannel := none, zchannel := none,
        channels := chans },
     [Effect.buildDeviceList, Effect.createBenchtopPiezo deviceID])
  else
    (Except.error PyError.deviceNotReadyException, [Effect.buildDeviceList])

/-- `BPC303.__get_chan(axis)`: the channel attribute for `axis`. Only
reached with a valid axis token in the Python code. -/
def PyState.get_chan (s : PyState) (axis : String) : Option Nat :=
  if axis = "x" then s.xchannel
  else if axis = "y" then s.ychannel
  else if axis = "z" then s.zchannel
  else none

/-- `setattr(self, axis + "channel", h)` for a valid axis token. -/
def PyState.setHandle (s : PyState) (axis : String) (h : Option Nat) : PyState :=
  if axis = "x" then { s with xchannel := h }
  else if axis = "y" then { s with ychannel := h }
  else if axis = "z" then { s with zchannel := h }
  else s

/-- One iteration of the `for axis in ("x", "y", "z")` loop in
`BPC303.connect`: `GetChannel`, the `IsSettingsInitialized` check with the
bounded `WaitForSettingsInitialized(5000)`, `StartPolling(100)`,
`EnableDevice`. -/
def PyState.connectAxis (s : PyState) (axis : String) : PyState × List Effect :=
  let n := s.axis_chan_mapping.lookup axis
  let s1 := s.setHandle axis (some n)
  if ((lookupChan s1.channels n).map ChannelState.settingsInit).getD true then
    let chA := updateChan (fun c => { c with pollingInterval := some 100 }) s1.channels n
    let chB := updateChan (fun c => { c with enabled := true }) chA n
    ({ s1 with channels := chB },
     [Effect.getChannel n, Effect.startPolling n 100, Effect.enableDevice n])
  else
    let ch0 := updateChan (fun c => { c with settingsInit := true }) s1.channels n
    let chA := updateChan (fun c => { c with pollingInterval := some 100 }) ch0 n
    let chB := updateChan (fun c => { c with enabled := true }) chA n
    ({ s1 with channels := chB },
     [Effect.getChannel n, Effect.waitForSettingsInit n 5000,
      Effect.startPolling n 100, Effect.enableDevice n])

/-- `BPC303.connect()`: `controller.Connect(deviceID)`, store
`controller.IsConnected` into `isconnected`, then the per-axis loop over
x, y, z in that textual order. No state is checked before reconnecting. -/
def PyState.connect (s : PyState) : Except PyError PyState × List Effect :=
  let s0 := { s with controllerConnected := true, isconnected := true }
  let r1 := s0.connectAxis "x"
  let r2 := r1.1.connectAxis "y"
  let r3 := r2.1.connectAxis "z"
  (Except.ok r3.1, Effect.controllerConnect s.deviceID :: (r1.2 ++ r2.2 ++ r3.2))

/-- `BPC303.identify(axis)`: on a valid axis, look the channel up and call
`IdentifyDevice` then `sleep(5)`; a `None` channel attribute makes the
`IdentifyDevice` call raise `AttributeError`. On any other token the method
prints a message and returns. -/
def PyState.identify (s : PyState) (axis : String) :
    Except PyError PyState × List Effect :=
  if axis = "x" ∨ axis = "y" ∨ axis = "z" then
    match s.get_chan axis with
    | none => (Except.error PyError.attributeError, [])
    | some n => (Except.ok s, [Effect.identifyDevice n, Effect.sleepSeconds 5])
  else
    (Except.ok s, [])

/-- `BPC303.set_close_loop(yes)`: `SetPositionControlMode` on the x, y and z
channels in that order; a `None` channel attribute raises `AttributeError`. -/
def PyState.set_close_loop (s : PyState) (yes : Bool) :
    Except PyError PyState × List Effect :=
  match s.get_chan "x" with
  | none => (Except.error PyError.attributeError, [])
  | some nx =>
    match s.get_chan "y" with
    | none => (Except.error PyError.attributeError,
               [Effect.setPositionControlMode nx yes])
    | some ny =>
      match s.get_chan "z" with
      | none => (Except.error PyError.attributeError,
                 [Effect.setPositionControlMode nx yes,
                  Effect.setPositionControlMode ny yes])
      | some nz =>
        (Except.ok s,
         [Effect.setPositionControlMode nx yes,
          Effect.setPositionControlMode ny yes,
          Effect.setPositionControlMode nz yes])

/-- `BPC303.__zero_axis(axis)`: on a valid axis, `SetZero` on its channel
(`AttributeError` when the channel attribute is `None`); otherwise print
"axis invalid" and do nothing. -/
def PyState.zero_axis (s : PyState) (axis : String) :
    Except PyError PyState × List Effect :=
  if axis = "x" ∨ axis = "y" ∨ axis = "z" then
    match s.get_chan axis with
    | none => (Except.error PyError.attributeError, [])
    | some n =>
      let ch := updateChan (fun c => { c with zeroed := true }) s.channels n
      (Except.ok { s with channels := ch }, [Effect.setZero n])
  else
    (Except.ok s, [])

/-- `BPC303.zero(axis)`: axis `"all"` zeroes x, y, z in order; a single
valid axis zeroes that one; any other token prints "axis invalid" and does
nothing. -/
def PyState.zero (s : PyState) (axis : String) :
    Except PyError PyState × List Effect :=
  if axis = "all" then
    match s.zero_axis "x" with
    | (Except.error e, t1) => (Except.error e, t1)
    | (Except.ok s1, t1) =>
      match s1.zero_axis "y" with
      | (Except.error e, t2) => (Except.error e, t1 ++ t2)
      | (Except.ok s2, t2) =>
        match s2.zero_axis "z" with
        | (Except.error e, t3) => (Except.error e, t1 ++ t2 ++ t3)
        | (Except.ok s3, t3) => (Except.ok s3, t1 ++ t2 ++ t3)
  else if axis = "x" ∨ axis = "y" ∨ axis = "z" then
    s.zero_axis axis
  else
    (Except.ok s, [])

/-- `BPC303.__set_axis_position(axis, pos)`: on a valid axis,
`SetPosition(Decimal(pos))` on its channel (`AttributeError` when the
channel attribute is `None`); otherwise print "axis invalid". -/
def PyState.set_axis_position (s : PyState) (axis : String) (pos : Rat) :
    Except PyError PyState × List Effect :=
  if axis = "x" ∨ axis = "y" ∨ axis = "z" then
    match s.get_chan axis with
    | none => (Except.error PyError.attributeError, [])
    | some n =>
      let ch := updateChan (fun c => { c with position := some pos }) s.channels n
      (Except.ok { s with channels := ch }, [Effect.setPositionCmd n pos])
  else
    (Except.ok s, [])

/-- One iteration of the loop in `BPC303.set_position`: `pass` when the
coordinate is `None`, else delegate to `__set_axis_position`. -/
def PyState.setPosOne (s : PyState) (axis : String) (pos : Option Rat) :
    Except PyError PyState × List Effect :=
  match pos with
  | none => (Except.ok s, [])
  | some p => s.set_axis_position axis p

/-- `BPC303.set_position(x, y, z)`: iterate over the dict
`{"x": x, "y": y, "z": z}` in insertion order, skipping `None` entries. -/
def PyState.set_position (s : PyState) (x y z : Option Rat) :
    Except PyError PyState × List Effect :=
  match s.setPosOne "x" x with
  | (Except.error e, t1) => (Except.error e, t1)
  | (Except.ok s1, t1) =>
    match s1.setPosOne "y" y with
    | (Except.error e, t2) => (Except.error e, t1 ++ t2)
    | (Except.ok s2, t2) =>
      match s2.setPosOne "z" z with
      | (Except.error e, t3) => (Except.error e, t1 ++ t2 ++ t3)
      | (Except.ok s3, t3) => (Except.ok s3, t1 ++ t2 ++ t3)

/-- One iteration of the loop in `BPC303.shutdown`: `StopPolling` then
`DisableDevice` on the channel of `axis`. -/
def PyState.shutdownAxis (s : PyState) (axis : String) :
    Except PyError PyState × List Effect :=
  match s.get_chan axis with
  | none => (Except.error PyError.attributeError, [])
  | some n =>
    let ch := updateChan (fun c => { c with pollingInterval := none, enabled := false }) s.channels n
    (Except.ok { s with channels := ch },
     [Effect.stopPolling n, Effect.disableDevice n])

/-- `BPC303.shutdown()`: when `controller.IsConnected`, stop polling and
disable each of the x, y, z channels, then `controller.Disconnect()`;
otherwise do nothing. Note that `self.isconnected` is never written here. -/
def PyState.shutdown (s : PyState) : Except PyError PyState × List Effect :=
  if s.controllerConnected then
    match s.shutdownAxis "x" with
    | (Except.error e, t1) => (Except.error e, t1)
    | (Except.ok s1, t1) =>
      match s1.shutdownAxis "y" with
      | (Except.error e, t2) => (Except.error e, t1 ++ t2)
      | (Except.ok s2, t2) =>
        match s2.shutdownAxis "z" with
        | (Except.error e, t3) => (Except.error e, t1 ++ t2 ++ t3)
        | (Except.ok s3, t3) =>
          (Except.ok { s3 with controllerConnected := false },
           t1 ++ t2 ++ t3 ++ [Effect.controllerDisconnect])
  else
    (Except.ok s, [])

/-- The driver-side state of the three physical channels of a BPC 303 before
any interaction: channels 1, 2, 3, settings not yet initialized. -/
def fresh3 : List (Nat × ChannelState) :=
  [(1, freshChannel), (2, freshChannel), (3, freshChannel)]

/-- The session state `BPC303("71858688")` produces when device `71858688`
is discoverable: controller created, nothing connected, channel attributes
`None`. -/
def initState : PyState :=
  { deviceID := "71858688", isconnected := false,
    axis_chan_mapping := defaultMapping, controllerConnected := false,
    xchannel := none, ychannel := none, zchannel := none, channels := fresh3 }

/-- A channel after `connect()` touched it: initialized, polling at 100 ms,
enabled. -/
def liveChannel : ChannelState :=
  { settingsInit := true, pollingInterval := some 100, enabled := true,
    position := none, zeroed := false }

/-- The session state after `initState.connect`: handles acquired, all
channels polling and enabled. -/
def connState : PyState :=
  { deviceID := "71858688", isconnected := true,
    axis_chan_mapping := defaultMapping, controllerConnected := true,
    xchannel := some 1, ychannel := some 2, zchannel := some 3,
    channels := [(1, liveChannel), (2, liveChannel), (3, liveChannel)] }

/-- A channel after `shutdown()` touched it: polling stopped, disabled. -/
def downChannel : ChannelState :=
  { settingsInit := true, pollingInterval := none, enabled := false,
    position := none, zeroed := false }

/-- States from which `shutdown` can run without a `None` channel attribute:
whenever the controller reports connected, all three channel attributes are
set. Every state the class actually reaches satisfies this. -/
def ShutdownSafe (s : PyState) : Prop :=
  s.controllerConnected = true →
    (s.xchannel ≠ none ∧ s.ychannel ≠ none ∧ s.zchannel ≠ none)

instance (s : PyState) : Decidable (ShutdownSafe s) := by
  unfold ShutdownSafe; infer_instance

/-- The position commands `set_position` owes one coordinate: none when the
coordinate is absent, exactly one `SetPosition` otherwise. -/
def posTrace (chan : Nat) : Option Rat → List Effect
  | none => []
  | some p => [Effect.setPositionCmd chan p]
deriving instance DecidableEq for Except

theorem get_chan_x (s : PyState) : s.get_chan "x" = s.xchannel := rfl

theorem get_chan_y (s : PyState) : s.get_chan "y" = s.ychannel := by
  simp [PyState.get_chan]

theorem get_chan_z (s : PyState) : s.get_chan "z" = s.zchannel := by
  simp [PyState.get_chan]

theorem lookup_axis_x (m : AxisChanMapping) : m.lookup "x" = m.x := rfl

theorem lookup_axis_y (m : AxisChanMapping) : m.lookup "y" = m.y := by
  simp [AxisChanMapping.lookup]

theorem lookup_axis_z (m : AxisChanMapping) : m.lookup "z" = m.z := by
  simp [AxisChanMapping.lookup]

theorem setHandle_channels (s : PyState) (a : String) (h : Option Nat) :
    (s.setHandle a h).channels = s.channels := by
  unfold PyState.setHandle
  split_ifs <;> rfl

theorem setHandle_mapping (s : PyState) (a : String) (h : Option Nat) :
    (s.setHandle a h).axis_chan_mapping = s.axis_chan_mapping := by
  unfold PyState.setHandle
  split_ifs <;> rfl

theorem lookupChan_updateChan_ne (f : ChannelState → ChannelState)
    (l : List (Nat × ChannelState)) {n m : Nat} (h : m ≠ n) :
    lookupChan (updateChan f l n) m = lookupChan l m := by
  induction l with
  | nil => rfl
  | cons p t ih =>
    obtain ⟨k, c⟩ := p
    by_cases hk : k = n <;> by_cases hm : k = m
    · exact absurd (hm.symm.trans hk) h
    all_goals simp [updateChan, lookupChan, hk, hm, ih, h, Ne.symm h]

theorem connectAxis_mapping (s : PyState) (a : String) :
    (s.connectAxis a).1.axis_chan_mapping = s.axis_chan_mapping := by
  simp only [PyState.connectAxis]
  split <;> simp [setHandle_mapping]

theorem connectAxis_controller (s : PyState) (a : String) :
    (s.connectAxis a).1.controllerConnected = s.controllerConnected := by
  simp only [PyState.connectAxis]
  unfold PyState.setHandle
  split <;> split_ifs <;> rfl

theorem connectAxis_isconn (s : PyState) (a : String) :
    (s.connectAxis a).1.isconnected = s.isconnected := by
  simp only [PyState.connectAxis]
  unfold PyState.setHandle
  split <;> split_ifs <;> rfl

theorem connectAxis_trace_mem (s : PyState) (a : String) :
    Effect.getChannel (s.axis_chan_mapping.lookup a) ∈ (s.connectAxis a).2 := by
  simp only [PyState.connectAxis]
  split <;> simp

theorem connectAxis_lookup_ne (s : PyState) (a : String) {m : Nat}
    (hm : m ≠ s.axis_chan_mapping.lookup a) :
    lookupChan (s.connectAxis a).1.channels m = lookupChan s.channels m := by
  simp only [PyState.connectAxis]
  split <;> simp [setHandle_channels, lookupChan_updateChan_ne _ _ hm]

theorem connectAxis_trace_uninit (s : PyState) (a : String) (c : ChannelState)
    (hc : lookupChan s.channels (s.axis_chan_mapping.lookup a) = some c)
    (h0 : c.settingsInit = false) :
    (s.connectAxis a).2 =
      [Effect.getChannel (s.axis_chan_mapping.lookup a),
       Effect.waitForSettingsInit (s.axis_chan_mapping.lookup a) 5000,
       Effect.startPolling (s.axis_chan_mapping.lookup a) 100,
       Effect.enableDevice (s.axis_chan_mapping.lookup a)] := by
  simp only [PyState.connectAxis]
  rw [setHandle_channels, hc]
  simp [h0]
/-- Claim C1: a device identity absent from the discovered list makes
construction fail with DeviceNotReadyException, with no controller object
created and no connection attempted; a present identity yields the
constructed object (controller created, channel attributes None) without
any connection attempt. -/
theorem init_checks_device_list (dl : List String) (id : String)
    (m : AxisChanMapping) (chans : List (Nat × ChannelState)) :
    (id ∉ dl →
      BPC303.init dl id m chans =
        (Except.error PyError.deviceNotReadyException, [Effect.buildDeviceList])) ∧
    (id ∈ dl →
      BPC303.init dl id m chans =
        (Except.ok
          { deviceID := id, isconnected := false, axis_chan_mapping := m,
            controllerConnected := false, xchannel := none, ychannel := none,
            zchannel := none, channels := chans },
         [Effect.buildDeviceList, Effect.createBenchtopPiezo id])) ∧
    (∀ i, Effect.controllerConnect i ∉ (BPC303.init dl id m chans).2) := by
  refine ⟨fun h => ?_, fun h => ?_, fun i => ?_⟩
  · simp [BPC303.init, h]
  · simp [BPC303.init, h]
  · by_cases h : id ∈ dl <;> simp [BPC303.init, h]

/-- Claim C1 witness: a concrete absent identity is rejected with no
connection attempt, and a concrete present identity is constructed. -/
theorem init_checks_device_list_witness :
    BPC303.init ["71858688"] "123" defaultMapping fresh3 =
      (Except.error PyError.deviceNotReadyException, [Effect.buildDeviceList]) ∧
    BPC303.init ["71858688"] "71858688" defaultMapping fresh3 =
      (Except.ok
        { deviceID := "71858688", isconnected := false,
          axis_chan_mapping := defaultMapping, controllerConnected := false,
          xchannel := none, ychannel := none, zchannel := none,
          channels := fresh3 },
       [Effect.buildDeviceList, Effect.createBenchtopPiezo "71858688"]) :=
  ⟨(init_checks_device_list ["71858688"] "123" defaultMapping fresh3).1 (by decide),
   (init_checks_device_list ["71858688"] "71858688" defaultMapping fresh3).2.1 (by decide)⟩
/-- Claim C2 counterexample: on the reachable Connected session for device
71858688, connect() is neither rejected nor a no-op: it returns normally
and its driver trace re-opens the controller and re-acquires the three
channel handles. -/
theorem connect_on_connected_reconnects :
    (BPC303.init ["71858688"] "71858688" defaultMapping fresh3).1 =
        Except.ok initState ∧
    initState.connect.1 = Except.ok connState ∧
    connState.connect.1 = Except.ok connState ∧
    connState.connect.2 ≠ [] ∧
    Effect.controllerConnect "71858688" ∈ connState.connect.2 ∧
    Effect.getChannel 1 ∈ connState.connect.2 ∧
    Effect.getChannel 2 ∈ connState.connect.2 ∧
    Effect.getChannel 3 ∈ connState.connect.2 := by
  decide

/-- Claim C2 amended: connect() checks no session state. On every session
state, Connected ones included, it returns normally, re-issues the
controller connect, re-acquires the channel handle of every mapped channel,
and leaves the controller-connected and isconnected flags true. -/
theorem connect_unguarded (s : PyState) :
    ∃ s2 tr, s.connect = (Except.ok s2, tr) ∧
      Effect.controllerConnect s.deviceID ∈ tr ∧
      Effect.getChannel s.axis_chan_mapping.x ∈ tr ∧
      Effect.getChannel s.axis_chan_mapping.y ∈ tr ∧
      Effect.getChannel s.axis_chan_mapping.z ∈ tr ∧
      s2.controllerConnected = true ∧ s2.isconnected = true := by
  refine ⟨_, _, rfl, ?_, ?_, ?_, ?_, ?_, ?_⟩
  · exact List.mem_cons_self _ _
  · have h1 := connectAxis_trace_mem
      { s with controllerConnected := true, isconnected := true } "x"
    rw [lookup_axis_x] at h1
    exact List.mem_cons_of_mem _
      (List.mem_append_left _ (List.mem_append_left _ h1))
  · have h2 := connectAxis_trace_mem
      (({ s with controllerConnected := true, isconnected := true } :
        PyState).connectAxis "x").1 "y"
    rw [lookup_axis_y, connectAxis_mapping] at h2
    exact List.mem_cons_of_mem _
      (List.mem_append_left _ (List.mem_append_right _ h2))
  · have h3 := connectAxis_trace_mem
      ((((({ s with controllerConnected := true, isconnected := true } :
        PyState).connectAxis "x").1).connectAxis "y").1) "z"
    rw [lookup_axis_z, connectAxis_mapping, connectAxis_mapping] at h3
    exact List.mem_cons_of_mem _ (List.mem_append_right _ h3)
  · rw [connectAxis_controller, connectAxis_controller, connectAxis_controller]
  · rw [connectAxis_isconn, connectAxis_isconn, connectAxis_isconn]
/-- Claim C3: shutdown() is idempotent. On every session state whose
controller-connected flag implies the three channel attributes are set
(all states the class reaches), running shutdown twice ends in the same
state as running it once, the second run issuing no driver call; and on a
session whose controller was never connected it is a no-op issuing no
channel or controller operation. -/
theorem shutdown_idempotent (s : PyState) (h : ShutdownSafe s) :
    (∃ s1 t1, s.shutdown = (Except.ok s1, t1) ∧
       s1.shutdown = (Except.ok s1, [])) ∧
    (s.controllerConnected = false → s.shutdown = (Except.ok s, [])) := by
  by_cases hc : s.controllerConnected = true
  · obtain ⟨hx, hy, hz⟩ := h hc
    obtain ⟨nx, hnx⟩ := Option.ne_none_iff_exists'.mp hx
    obtain ⟨ny, hny⟩ := Option.ne_none_iff_exists'.mp hy
    obtain ⟨nz, hnz⟩ := Option.ne_none_iff_exists'.mp hz
    have e1 : s.shutdown =
        (Except.ok
          { s with
            channels :=
              updateChan (fun c => { c with pollingInterval := none, enabled := false })
                (updateChan (fun c => { c with pollingInterval := none, enabled := false })
                  (updateChan (fun c => { c with pollingInterval := none, enabled := false })
                    s.channels nx) ny) nz,
            controllerConnected := false },
         [Effect.stopPolling nx, Effect.disableDevice nx,
          Effect.stopPolling ny, Effect.disableDevice ny,
          Effect.stopPolling nz, Effect.disableDevice nz,
          Effect.controllerDisconnect]) := by
      simp [PyState.shutdown, PyState.shutdownAxis, get_chan_x, get_chan_y,
        get_chan_z, hc, hnx, hny, hnz]
    refine ⟨⟨_, _, e1, ?_⟩, fun hf => ?_⟩
    · simp [PyState.shutdown]
    · rw [hf] at hc
      exact absurd hc (by decide)
  · have hc0 : s.controllerConnected = false := by
      simpa using hc
    have e0 : s.shutdown = (Except.ok s, []) := by
      simp [PyState.shutdown, hc0]
    exact ⟨⟨s, [], e0, e0⟩, fun _ => e0⟩

/-- Claim C3 witness: idempotence and the empty second run at the concrete
connected session for device 71858688. -/
theorem shutdown_idempotent_witness :
    (∃ s1 t1, connState.shutdown = (Except.ok s1, t1) ∧
       s1.shutdown = (Except.ok s1, [])) ∧
    (connState.controllerConnected = false →
       connState.shutdown = (Except.ok connState, [])) :=
  shutdown_idempotent connState (by decide)
/-- Claim C4: on a session whose three mapped channels are distinct and not
yet settings-initialized, connect() issues, after the controller open,
exactly this driver sequence: for x then y then z, acquire the mapped
channel handle, wait (bounded by 5000 ms) for settings initialization,
start polling at 100 ms, enable the channel. -/
theorem connect_trace_order (s : PyState) (cx cy cz : ChannelState)
    (hx : lookupChan s.channels s.axis_chan_mapping.x = some cx)
    (hx0 : cx.settingsInit = false)
    (hy : lookupChan s.channels s.axis_chan_mapping.y = some cy)
    (hy0 : cy.settingsInit = false)
    (hz : lookupChan s.channels s.axis_chan_mapping.z = some cz)
    (hz0 : cz.settingsInit = false)
    (hyx : s.axis_chan_mapping.y ≠ s.axis_chan_mapping.x)
    (hzx : s.axis_chan_mapping.z ≠ s.axis_chan_mapping.x)
    (hzy : s.axis_chan_mapping.z ≠ s.axis_chan_mapping.y) :
    s.connect.2 =
      [Effect.controllerConnect s.deviceID,
       Effect.getChannel s.axis_chan_mapping.x,
       Effect.waitForSettingsInit s.axis_chan_mapping.x 5000,
       Effect.startPolling s.axis_chan_mapping.x 100,
       Effect.enableDevice s.axis_chan_mapping.x,
       Effect.getChannel s.axis_chan_mapping.y,
       Effect.waitForSettingsInit s.axis_chan_mapping.y 5000,
       Effect.startPolling s.axis_chan_mapping.y 100,
       Effect.enableDevice s.axis_chan_mapping.y,
       Effect.getChannel s.axis_chan_mapping.z,
       Effect.waitForSettingsInit s.axis_chan_mapping.z 5000,
       Effect.startPolling s.axis_chan_mapping.z 100,
       Effect.enableDevice s.axis_chan_mapping.z] := by
  set s0 : PyState := { s with controllerConnected := true, isconnected := true } with hs0
  have m0 : s0.axis_chan_mapping = s.axis_chan_mapping := rfl
  have c0 : s0.channels = s.channels := rfl
  set r1 := s0.connectAxis "x" with hr1
  have m1 : r1.1.axis_chan_mapping = s.axis_chan_mapping := by
    rw [hr1, connectAxis_mapping]
  have t1 : r1.2 =
      [Effect.getChannel s.axis_chan_mapping.x,
       Effect.waitForSettingsInit s.axis_chan_mapping.x 5000,
       Effect.startPolling s.axis_chan_mapping.x 100,
       Effect.enableDevice s.axis_chan_mapping.x] := by
    rw [hr1]
    have := connectAxis_trace_uninit s0 "x" cx (by rw [c0, m0, lookup_axis_x]; exact hx) hx0
    rwa [m0, lookup_axis_x] at this
  have l1y : lookupChan r1.1.channels s.axis_chan_mapping.y = some cy := by
    rw [hr1, connectAxis_lookup_ne s0 "x" (by rw [m0, lookup_axis_x]; exact hyx), c0]
    exact hy
  have l1z : lookupChan r1.1.channels s.axis_chan_mapping.z = some cz := by
    rw [hr1, connectAxis_lookup_ne s0 "x" (by rw [m0, lookup_axis_x]; exact hzx), c0]
    exact hz
  set r2 := r1.1.connectAxis "y" with hr2
  have m2 : r2.1.axis_chan_mapping = s.axis_chan_mapping := by
    rw [hr2, connectAxis_mapping, m1]
  have t2 : r2.2 =
      [Effect.getChannel s.axis_chan_mapping.y,
       Effect.waitForSettingsInit s.axis_chan_mapping.y 5000,
       Effect.startPolling s.axis_chan_mapping.y 100,
       Effect.enableDevice s.axis_chan_mapping.y] := by
    rw [hr2]
    have := connectAxis_trace_uninit r1.1 "y" cy (by rw [m1, lookup_axis_y]; exact l1y) hy0
    rwa [m1, lookup_axis_y] at this
  have l2z : lookupChan r2.1.channels s.axis_chan_mapping.z = some cz := by
    rw [hr2, connectAxis_lookup_ne r1.1 "y" (by rw [m1, lookup_axis_y]; exact hzy)]
    exact l1z
  set r3 := r2.1.connectAxis "z" with hr3
  have t3 : r3.2 =
      [Effect.getChannel s.axis_chan_mapping.z,
       Effect.waitForSettingsInit s.axis_chan_mapping.z 5000,
       Effect.startPolling s.axis_chan_mapping.z 100,
       Effect.enableDevice s.axis_chan_mapping.z] := by
    rw [hr3]
    have := connectAxis_trace_uninit r2.1 "z" cz (by rw [m2, lookup_axis_z]; exact l2z) hz0
    rwa [m2, lookup_axis_z] at this
  have : s.connect.2 = Effect.controllerConnect s.deviceID :: (r1.2 ++ r2.2 ++ r3.2) := rfl
  rw [this, t1, t2, t3]
  rfl

/-- Claim C4 witness: the exact connect sequence on the freshly constructed
session for device 71858688 with the default mapping. -/
theorem connect_trace_order_witness :
    initState.connect.2 =
      [Effect.controllerConnect "71858688",
       Effect.getChannel 1, Effect.waitForSettingsInit 1 5000,
       Effect.startPolling 1 100, Effect.enableDevice 1,
       Effect.getChannel 2, Effect.waitForSettingsInit 2 5000,
       Effect.startPolling 2 100, Effect.enableDevice 2,
       Effect.getChannel 3, Effect.waitForSettingsInit 3 5000,
       Effect.startPolling 3 100, Effect.enableDevice 3] :=
  connect_trace_order initState freshChannel freshChannel freshChannel
    (by decide) (by decide) (by decide) (by decide) (by decide) (by decide)
    (by decide) (by decide) (by decide)
/-- Claim C5, evaluated at the failing input: shutting down the reachable
Connected session does stop polling, disable all three channels and release
the controller connection, but the session's own isconnected flag — the
attribute the class documents as representing the connection state — is
left at true, so the session does not end in the Disconnected state it
reports. -/
theorem shutdown_leaves_isconnected_true :
    connState.shutdown =
      (Except.ok
        { deviceID := "71858688", isconnected := true,
          axis_chan_mapping := defaultMapping, controllerConnected := false,
          xchannel := some 1, ychannel := some 2, zchannel := some 3,
          channels := [(1, downChannel), (2, downChannel), (3, downChannel)] },
       [Effect.stopPolling 1, Effect.disableDevice 1,
        Effect.stopPolling 2, Effect.disableDevice 2,
        Effect.stopPolling 3, Effect.disableDevice 3,
        Effect.controllerDisconnect]) ∧
    initState.connect.1 = Except.ok connState ∧
    connState.isconnected = true := by
  decide

/-- Claim C6 counterexample: identify on the invalid axis token q of the
connected session raises nothing at all — it returns normally with the
state unchanged — so it does not fail with a typed invalid-axis error. -/
theorem identify_invalid_axis_returns_ok :
    connState.identify "q" = (Except.ok connState, []) := by
  decide

/-- Claim C6 amended: for every axis token outside x, y, z, identify raises
no exception — it reports the invalid axis with a printed message, returns
with the session unchanged, and triggers no identification signal on any
channel. -/
theorem identify_invalid_axis_no_signal (s : PyState) (axis : String)
    (h : ¬(axis = "x" ∨ axis = "y" ∨ axis = "z")) :
    s.identify axis = (Except.ok s, []) := by
  simp only [PyState.identify, if_neg h]

/-- Claim C6 amended witness: the invalid token w on the connected
session. -/
theorem identify_invalid_axis_no_signal_witness :
    connState.identify "w" = (Except.ok connState, []) :=
  identify_invalid_axis_no_signal connState "w" (by decide)

/-- Claim C7: for every axis token outside x, y, z, all, zero reports the
invalid axis without raising an exception, issues no Set Zero command to
any channel, and leaves the whole session state — the x, y and z channels
included — unchanged. -/
theorem zero_invalid_axis_no_command (s : PyState) (axis : String)
    (hall : axis ≠ "all") (h : ¬(axis = "x" ∨ axis = "y" ∨ axis = "z")) :
    s.zero axis = (Except.ok s, []) := by
  simp only [PyState.zero, if_neg hall, if_neg h]

/-- Claim C7 witness: the invalid token q on the connected session. -/
theorem zero_invalid_axis_no_command_witness :
    connState.zero "q" = (Except.ok connState, []) :=
  zero_invalid_axis_no_command connState "q" (by decide) (by decide)
theorem setPosOne_spec (s : PyState) (axis : String) (n : Nat) (o : Option Rat)
    (hax : axis = "x" ∨ axis = "y" ∨ axis = "z")
    (hn : s.get_chan axis = some n) :
    ∃ s2, s.setPosOne axis o = (Except.ok s2, posTrace n o) ∧
      s2.xchannel = s.xchannel ∧ s2.ychannel = s.ychannel ∧
      s2.zchannel = s.zchannel ∧
      (∀ m, m ≠ n → lookupChan s2.channels m = lookupChan s.channels m) ∧
      (o = none → s2 = s) := by
  cases o with
  | none => exact ⟨s, rfl, rfl, rfl, rfl, fun _ _ => rfl, fun _ => rfl⟩
  | some p =>
    refine ⟨{ s with channels := updateChan (fun c => { c with position := some p }) s.channels n }, ?_, rfl, rfl, rfl, ?_, ?_⟩
    · simp [PyState.setPosOne, PyState.set_axis_position, hax, hn, posTrace]
    · intro m hm
      simp [lookupChan_updateChan_ne _ _ hm]
    · intro hc
      cases hc

/-- Claim C8: on a session with distinct channel handles for x, y, z, a
set_position call issues exactly one position command, carrying the given
value, to the channel of each provided coordinate — in x, y, z order — and
no command at all for an omitted coordinate, whose channel state is left
unchanged. -/
theorem set_position_only_provided (s : PyState) (nx ny nz : Nat)
    (ox oy oz : Option Rat)
    (hx : s.xchannel = some nx) (hy : s.ychannel = some ny)
    (hz : s.zchannel = some nz)
    (hyx : ny ≠ nx) (hzx : nz ≠ nx) (hzy : nz ≠ ny) :
    ∃ s3, s.set_position ox oy oz =
        (Except.ok s3, posTrace nx ox ++ posTrace ny oy ++ posTrace nz oz) ∧
      (ox = none → lookupChan s3.channels nx = lookupChan s.channels nx) ∧
      (oy = none → lookupChan s3.channels ny = lookupChan s.channels ny) ∧
      (oz = none → lookupChan s3.channels nz = lookupChan s.channels nz) := by
  obtain ⟨s1, e1, ex1, ey1, ez1, f1, n1⟩ :=
    setPosOne_spec s "x" nx ox (by simp) (by rw [get_chan_x, hx])
  obtain ⟨s2, e2, ex2, ey2, ez2, f2, n2⟩ :=
    setPosOne_spec s1 "y" ny oy (by simp) (by rw [get_chan_y, ey1, hy])
  obtain ⟨s3, e3, ex3, ey3, ez3, f3, n3⟩ :=
    setPosOne_spec s2 "z" nz oz (by simp) (by rw [get_chan_z, ez2, ez1, hz])
  refine ⟨s3, ?_, ?_, ?_, ?_⟩
  · simp [PyState.set_position, e1, e2, e3]
  · intro h0
    rw [f3 nx (Ne.symm hzx), f2 nx (Ne.symm hyx), n1 h0]
  · intro h0
    rw [f3 ny (Ne.symm hzy), n2 h0, f1 ny hyx]
  · intro h0
    rw [n3 h0, f2 nz hzy, f1 nz hzx]

/-- Claim C8 witness: on the connected session, set_position(5, None, None)
commands only channel 1, to 5, and channels 2 and 3 are untouched. -/
theorem set_position_only_provided_witness :
    ∃ s3, connState.set_position (some 5) none none =
        (Except.ok s3,
         posTrace 1 (some 5) ++ posTrace 2 none ++ posTrace 3 none) ∧
      (some (5 : Rat) = none →
        lookupChan s3.channels 1 = lookupChan connState.channels 1) ∧
      ((none : Option Rat) = none →
        lookupChan s3.channels 2 = lookupChan connState.channels 2) ∧
      ((none : Option Rat) = none →
        lookupChan s3.channels 3 = lookupChan connState.channels 3) :=
  set_position_only_provided connState 1 2 3 (some 5) none none rfl rfl rfl
    (by decide) (by decide) (by decide)
/-- Claim C10: for every successfully constructed session, until connect()
runs the three channel attributes are None, and every axis operation tried
in that window — identify, set_close_loop, zero (single axis or all),
set_position with any provided coordinate — dereferences the None channel
and raises AttributeError, not a typed session error. -/
theorem preconnect_ops_raise_attribute_error (dl : List String) (id : String)
    (m : AxisChanMapping) (chans : List (Nat × ChannelState)) (h : id ∈ dl) :
    ∃ s, (BPC303.init dl id m chans).1 = Except.ok s ∧
      s.xchannel = none ∧ s.ychannel = none ∧ s.zchannel = none ∧
      (∀ a, a = "x" ∨ a = "y" ∨ a = "z" →
        (s.identify a).1 = Except.error PyError.attributeError ∧
        (s.zero a).1 = Except.error PyError.attributeError) ∧
      (∀ b, (s.set_close_loop b).1 = Except.error PyError.attributeError) ∧
      (s.zero "all").1 = Except.error PyError.attributeError ∧
      (∀ p : Rat,
        (s.set_position (some p) none none).1 = Except.error PyError.attributeError ∧
        (s.set_position none (some p) none).1 = Except.error PyError.attributeError ∧
        (s.set_position none none (some p)).1 = Except.error PyError.attributeError) := by
  have e : (BPC303.init dl id m chans).1 = Except.ok
      { deviceID := id, isconnected := false, axis_chan_mapping := m,
        controllerConnected := false, xchannel := none, ychannel := none,
        zchannel := none, channels := chans } := by
    simp [BPC303.init, h]
  refine ⟨_, e, rfl, rfl, rfl, ?_, ?_, ?_, ?_⟩
  · rintro a (rfl | rfl | rfl) <;>
      exact ⟨by simp [PyState.identify, PyState.get_chan],
             by simp [PyState.zero, PyState.zero_axis, PyState.get_chan]⟩
  · intro b
    simp [PyState.set_close_loop, PyState.get_chan]
  · simp [PyState.zero, PyState.zero_axis, PyState.get_chan]
  · intro p
    refine ⟨?_, ?_, ?_⟩ <;>
      simp [PyState.set_position, PyState.setPosOne, PyState.set_axis_position,
        PyState.get_chan]

/-- Claim C10 witness: the freshly constructed session for device 71858688
raises AttributeError on each pre-connect axis operation. -/
theorem preconnect_ops_raise_attribute_error_witness :
    ∃ s, (BPC303.init ["71858688"] "71858688" defaultMapping fresh3).1 =
        Except.ok s ∧
      s.xchannel = none ∧ s.ychannel = none ∧ s.zchannel = none ∧
      (∀ a, a = "x" ∨ a = "y" ∨ a = "z" →
        (s.identify a).1 = Except.error PyError.attributeError ∧
        (s.zero a).1 = Except.error PyError.attributeError) ∧
      (∀ b, (s.set_close_loop b).1 = Except.error PyError.attributeError) ∧
      (s.zero "all").1 = Except.error PyError.attributeError ∧
      (∀ p : Rat,
        (s.set_position (some p) none none).1 = Except.error PyError.attributeError ∧
        (s.set_position none (some p) none).1 = Except.error PyError.attributeError ∧
        (s.set_position none none (some p)).1 = Except.error PyError.attributeError) :=
  preconnect_ops_raise_attribute_error ["71858688"] "71858688" defaultMapping
    fresh3 (by decide)
